import Mathlib

/-!
Verification of the asynchronous request/response orchestration layer of the
couchbase python client.  The definitions below are a shallow embedding of the
code in `acouchbase/logic/wrappers.py`, `acouchbase/management/logic/wrappers.py`,
`couchbase/logic/collection.py` and `couchbase/logic/n1ql.py`.  Python values
and exceptions are modelled explicitly; asyncio futures and the event loop are
modelled from their documented semantics (a future resolves at most once;
`set_result`/`set_exception` on a completed future raise `InvalidStateError`;
exceptions escaping a loop callback are routed to the loop exception handler).
-/

namespace CouchbasePy

/-- Model of a Python value as it appears in the option/parameter dictionaries
of the SDK.  Python floats are modelled by exact rationals: the code under
verification never performs float arithmetic beyond storing
`timedelta.total_seconds()`. -/
inductive PyVal : Type where
  | pynone
  | pybool (b : Bool)
  | pyint (n : Int)
  | pyfloat (q : Rat)
  | pystr (s : String)
  | pylist (xs : List PyVal)

/-- Model of the Python exceptions reachable in the embedded code.
The SDK exception classes (`couchbase/exceptions.py` is not under `src/`) are
modelled from the spec: §3 describes a TypedException hierarchy with an
ArgumentValidation kind, a NotConnected / missing-connection kind, an
internal-SDK-error kind, engine-mapped kinds keyed by error code, and a generic
Couchbase base.  The builtin Python exceptions (`TypeError`, `ValueError`,
`AttributeError`, `KeyError`) and the asyncio `InvalidStateError` /
`CancelledError` are modelled from their documented semantics. -/
inductive PyExc : Type where
  | invalidArgument (msg : String)
  | missingConnection (msg : String)
  | internalSDK (msg : String)
  | couchbaseBase (msg : String)
  | mappedEngine (code : Int) (msg : String)
  | typeError (msg : String)
  | valueError (msg : String)
  | attributeError (msg : String)
  | keyError (msg : String)
  | invalidState (msg : String)
  | cancelledError (msg : String)
deriving Repr, DecidableEq

/-- Modelled from the spec: every kind of the §3 TypedException hierarchy
(argument validation, missing connection, internal SDK error, engine-mapped
errors and the generic base) is a subclass of `CouchbaseException`; the builtin
Python exceptions are not. -/
def isCouchbaseExc : PyExc → Bool
  | .invalidArgument _ => true
  | .missingConnection _ => true
  | .internalSDK _ => true
  | .couchbaseBase _ => true
  | .mappedEngine _ _ => true
  | _ => false

/-- The message carried by an exception, as `str(e)` would produce it. -/
def excMessage : PyExc → String
  | .invalidArgument m => m
  | .missingConnection m => m
  | .internalSDK m => m
  | .couchbaseBase m => m
  | .mappedEngine _ m => m
  | .typeError m => m
  | .valueError m => m
  | .attributeError m => m
  | .keyError m => m
  | .invalidState m => m
  | .cancelledError m => m

/-- Is the exception a Python `TypeError` or `ValueError`?  (The tuple checked
by `call_async_fn`.) -/
def isTypeOrValueErr : PyExc → Bool
  | .typeError _ => true
  | .valueError _ => true
  | _ => false

/-- Python truthiness of a modelled value (`if not value: ...`). -/
def pyFalsy : PyVal → Bool
  | .pynone => true
  | .pybool b => !b
  | .pyint n => decide (n = 0)
  | .pyfloat q => decide (q = 0)
  | .pystr s => decide (s = "")
  | .pylist xs => xs.isEmpty

/-- Python slicing `value[:-1]`: defined for sequences (strings, lists),
a `TypeError` for every other value, in particular floats. -/
def pySliceDropLast : PyVal → Except PyExc PyVal
  | .pystr s => .ok (.pystr (s.dropRight 1))
  | .pylist xs => .ok (.pylist xs.dropLast)
  | v => .error (.typeError (pyTypeName v ++ " object is not subscriptable"))
where
  /-- The Python type name used in the `TypeError` message. -/
  pyTypeName : PyVal → String
  | .pynone => "NoneType"
  | .pybool _ => "bool"
  | .pyint _ => "int"
  | .pyfloat _ => "float"
  | .pystr _ => "str"
  | .pylist _ => "list"

/-- Parse a decimal string as `float(s)` would, restricted to plain
`digits[.digits]` forms; every other string raises `ValueError`.  (No claim
exercises this path; it exists so that the `timeout` getter is a total
translation of its source.) -/
def parseDecimal : String → Option Rat := fun s =>
  match s.splitOn (".") with
  | [w] => if w ≠ "" ∧ w.all Char.isDigit then some ((w.toNat!) : Rat) else none
  | [w, f] =>
      if w ≠ "" ∧ f ≠ "" ∧ w.all Char.isDigit ∧ f.all Char.isDigit then
        some ((w.toNat! : Rat) + (f.toNat! : Rat) / ((10 : Rat) ^ f.length))
      else none
  | _ => none

/-- Python `float(value)` on a modelled value. -/
def pyFloatFn : PyVal → Except PyExc Rat
  | .pyfloat q => .ok q
  | .pyint n => .ok (n : Rat)
  | .pybool b => .ok (if b then 1 else 0)
  | .pystr s =>
      match parseDecimal s with
      | some q => .ok q
      | Option.none => .error (.valueError ("could not convert string to float: " ++ s))
  | v => .error (.typeError ("float() argument must be a string or a real number, not " ++
      pySliceDropLast.pyTypeName v))

/-! ### Parameter dictionaries

`N1QLQuery._params` and the raw result dictionaries are Python dicts with
string keys; they are modelled as association lists with the usual dict
operations (`get`, `pop`, `in`, item assignment overwriting in place). -/

/-- A Python dict with string keys. -/
abbrev Params := List (String × PyVal)

/-- Python `d.get(k, None)` (as an `Option`). -/
def paramsGet (p : Params) (k : String) : Option PyVal :=
  match p.find? (fun kv => kv.1 = k) with
  | some kv => some kv.2
  | Option.none => Option.none

/-- Python `k in d`. -/
def paramsContains (p : Params) (k : String) : Bool :=
  p.any (fun kv => kv.1 = k)

/-- Python `d[k] = v` (overwrite in place, else append). -/
def paramsSet (p : Params) (k : String) (v : PyVal) : Params :=
  match p with
  | [] => [(k, v)]
  | kv :: rest => if kv.1 = k then (k, v) :: rest else kv :: paramsSet rest k v

/-- Python `d.pop(k, default)` (the resulting dict; the popped value is unused
by the embedded code). -/
def paramsPop (p : Params) (k : String) : Params :=
  p.filter (fun kv => kv.1 ≠ k)

/-! ### asyncio futures and the event loop

Modelled from the documented semantics of `asyncio.Future` and
`AbstractEventLoop.call_soon_threadsafe`: a future is resolved at most once;
`set_result` / `set_exception` on a non-pending future raise
`InvalidStateError`; `cancel` on a pending future cancels it and on a
completed future is a no-op returning `False`; an exception raised inside a
callback run by the loop is caught by the loop and passed to its exception
handler (it is logged, never crashes the program and never alters the
future). -/

/-- The state of one `asyncio.Future`. -/
inductive FutureState : Type where
  | pending
  | resolvedOk (v : PyVal)
  | resolvedErr (e : PyExc)
  | cancelled

/-- The effect of `fut.set_result(v)`: resolve a pending future, raise
`InvalidStateError` otherwise. -/
def futSetResult : FutureState → PyVal → Except PyExc FutureState
  | .pending, v => .ok (.resolvedOk v)
  | _, _ => .error (.invalidState ("invalid state"))

/-- The effect of `fut.set_exception(e)`: resolve a pending future with a
failure, raise `InvalidStateError` otherwise. -/
def futSetException : FutureState → PyExc → Except PyExc FutureState
  | .pending, e => .ok (.resolvedErr e)
  | _, _ => .error (.invalidState ("invalid state"))

/-- The effect of `fut.cancel()`: cancel a pending future; a no-op on a
completed one (returns the new state and the `cancel()` return value). -/
def futCancel : FutureState → FutureState × Bool
  | .pending => (.cancelled, true)
  | s => (s, false)

/-- A resolution call scheduled on the event loop with
`call_soon_threadsafe` by one of the injected callbacks. -/
inductive SchedCall : Type where
  | callSetResult (v : PyVal)
  | callSetException (e : PyExc)

/-- Apply one scheduled call to the wrapped operation future. -/
def applySchedCall (s : FutureState) : SchedCall → Except PyExc FutureState
  | .callSetResult v => futSetResult s v
  | .callSetException e => futSetException s e

/-- Run the event loop over a queue of scheduled calls.  An exception raised by
a call (e.g. `InvalidStateError` from a double resolution) is caught by the
loop and appended to the list of handler-reported exceptions; the future is
left unchanged.  Returns the final future state and the reported
exceptions. -/
def runSched : FutureState → List PyExc → List SchedCall → FutureState × List PyExc
  | s, handled, [] => (s, handled)
  | s, handled, c :: rest =>
      match applySchedCall s c with
      | .ok s1 => runSched s1 handled rest
      | .error e => runSched s (handled ++ [e]) rest

/-! ### The completion bridge (`acouchbase/logic/wrappers.py`)

A wrapped native function `fn` either returns normally (after registering its
engine callbacks — the operation future stays pending until the engine fires a
callback) or raises an exception synchronously.  The outcome of the call
`fn(self, *args, **kwargs)` is the only behaviour of `fn` visible to
`call_async_fn` and the chaining callbacks, so it is the parameter of the
embedding. -/

/-- The synchronous outcome of invoking the wrapped native function. -/
inductive FnOutcome : Type where
  | returns
  | raises (e : PyExc)

/-- Embedding of `call_async_fn` (acouchbase/logic/wrappers.py, lines 35-48):
invoke `fn`; a `CouchbaseException` is set on the future as-is; a `TypeError`
or `ValueError` is set as-is; any other exception is wrapped in the
internal-SDK-error class (looked up in `PYCBC_ERROR_MAP`, modelled from the
spec since `couchbase/exceptions.py` is not under `src/`) and set on the
future.  `set_exception` itself can raise `InvalidStateError` when the future
is no longer pending; that propagates out of `call_async_fn` (the `except`
clauses have already matched). -/
def call_async_fn (ft : FutureState) (out : FnOutcome) : Except PyExc FutureState :=
  match out with
  | .returns => .ok ft
  | .raises e =>
      if isCouchbaseExc e then futSetException ft e
      else if isTypeOrValueErr e then futSetException ft e
      else futSetException ft (.internalSDK (excMessage e))

/-- Result of one of the `chain_*_futures` done-callbacks: the new state of
the dependent operation future, and whether the wrapped native function was
invoked. -/
structure ChainResult : Type where
  ft : FutureState
  fnInvoked : Bool

/-- Embedding of `AsyncWrapper.chain_futures` (acouchbase/logic/wrappers.py,
lines 155-173), the done-callback attached to the connect future `cft`: if
`cft` was cancelled, cancel the dependent future `ft` and return; else if
`cft` holds an exception, set that same exception on `ft`; else (optionally
propagate the connection to scope and collection and) invoke the wrapped
function via `call_async_fn`.  `cft.exception()` on a still-pending future
raises `InvalidStateError` (asyncio semantics; a done-callback never sees
that state). -/
def chain_futures (ft : FutureState) (cft : FutureState) (setConnection : Bool)
    (out : FnOutcome) : Except PyExc ChainResult :=
  match cft with
  | .cancelled => .ok ⟨(futCancel ft).1, false⟩
  | .resolvedErr e => do
      let ft1 ← futSetException ft e
      .ok ⟨ft1, false⟩
  | .resolvedOk _ => do
      let _ := setConnection
      let ft1 ← call_async_fn ft out
      .ok ⟨ft1, true⟩
  | .pending => .error (.invalidState ("exception is not set"))

/-- Embedding of `AsyncWrapper.chain_connect_futures` (acouchbase/logic/
wrappers.py, lines 104-119): identical control flow to `chain_futures`, with
the success branch copying the cluster connection onto `self` before invoking
the wrapped function. -/
def chain_connect_futures (ft : FutureState) (cft : FutureState)
    (out : FnOutcome) : Except PyExc ChainResult :=
  match cft with
  | .cancelled => .ok ⟨(futCancel ft).1, false⟩
  | .resolvedErr e => do
      let ft1 ← futSetException ft e
      .ok ⟨ft1, false⟩
  | .resolvedOk _ => do
      let ft1 ← call_async_fn ft out
      .ok ⟨ft1, true⟩
  | .pending => .error (.invalidState ("exception is not set"))

/-- The `return_cls` argument of the `inject_*` decorators: `None` maps every
result to `None`, `True` passes the raw result through, and a class wraps
it. -/
inductive ReturnCls : Type where
  | noneCls
  | rawCls
  | wrapCls (f : PyVal → PyVal)

/-- The `retval` computed by the injected `on_ok` callbacks from the raw
engine result. -/
def applyReturnCls : ReturnCls → PyVal → PyVal
  | .noneCls, _ => .pynone
  | .rawCls, r => r
  | .wrapCls f, r => f r

/-- A raw error object handed to an `errback` by the native engine:
`err()` code, `strerror()` message, optional structured `error_context()`. -/
structure NativeErr : Type where
  err : Int
  strerror : String
  errorContext : Option PyVal

/-- Modelled from the spec: `ErrorMapperNew.build_exception`
(`couchbase/exceptions.py`, not under `src/`) turns a raw engine error into
exactly one typed exception — a fine-grained class when structured context is
present, else the class keyed by the bare error code with the generic
Couchbase base as fallback (§4.4). -/
def build_exception (e : NativeErr) : PyExc :=
  match e.errorContext with
  | some _ => .mappedEngine e.err e.strerror
  | Option.none => .mappedEngine e.err e.strerror

/-- One invocation of the injected callbacks by the native engine: either the
success callback with a raw result or the failure callback with a raw
error. -/
inductive NativeEvent : Type where
  | okRes (res : PyVal)
  | errRes (e : NativeErr)

/-- What `AsyncWrapper.inject_callbacks.on_ok` / `on_err` (acouchbase/logic/
wrappers.py, lines 230-248) schedule on the event loop for one engine
callback invocation: `on_ok` schedules `ft.set_result(retval)` and `on_err`
schedules `ft.set_exception(build_exception(exc))`, both via
`call_soon_threadsafe`. -/
def injectCallbacksSched (rc : ReturnCls) : NativeEvent → SchedCall
  | .okRes r => .callSetResult (applyReturnCls rc r)
  | .errRes e => .callSetException (build_exception e)

/-- Deliver a sequence of engine callback invocations for one wrapped
operation: each invocation schedules its resolution call on the loop, and the
loop then runs the queue against the (initially pending) operation future. -/
def injectCallbacksDeliver (rc : ReturnCls) (events : List NativeEvent) :
    FutureState × List PyExc :=
  runSched .pending [] (events.map (injectCallbacksSched rc))

/-- The resolution the first engine callback invocation produces. -/
def resolveOf (rc : ReturnCls) : NativeEvent → FutureState
  | .okRes r => .resolvedOk (applyReturnCls rc r)
  | .errRes e => .resolvedErr (build_exception e)

/-! ### The wrapped entry points

Each `wrapped_fn` creates a fresh pending future, registers the callbacks and
then branches on `self._connection`.  The embedding takes the connection flag,
the eventual state of the chained connect future (as observed by its
done-callback) and the synchronous outcome of the wrapped function, and
returns the synchronous outcome of `wrapped_fn` itself: the returned future's
state at return time together with whether the wrapped function was invoked
(an `Except` error is an exception escaping `wrapped_fn` synchronously). -/

/-- Attribute table of `class AsyncWrapper` (acouchbase/logic/wrappers.py):
the methods the class actually defines. -/
def asyncWrapperAttrs : List String :=
  ["inject_connection_callbacks", "inject_close_callbacks",
   "chain_connect_futures", "inject_bucket_open_callbacks", "chain_futures",
   "inject_cluster_callbacks", "inject_callbacks",
   "inject_callbacks_and_decode", "datastructure_op"]

/-- Python attribute lookup `cls.<name>` on `AsyncWrapper`: an
`AttributeError` when the class has no such attribute. -/
def asyncWrapperGetattr (name : String) : Except PyExc Unit :=
  if asyncWrapperAttrs.contains name then .ok ()
  else .error (.attributeError ("type object AsyncWrapper has no attribute " ++ name))

/-- Embedding of the `wrapped_fn` of `AsyncWrapper.inject_callbacks`
(acouchbase/logic/wrappers.py, lines 226-267).  With a connection, the wrapped
function is invoked directly through `call_async_fn`.  Without one, the bucket
connect future is obtained and `cls.chain_futures` (looked up on the class) is
attached as its done-callback with `set_connection=True`; the embedding runs
that callback at the connect future's eventual state `connectOutcome`. -/
def inject_callbacks_wrapped (connSet : Bool) (connectOutcome : FutureState)
    (out : FnOutcome) : Except PyExc ChainResult :=
  if connSet then do
    let ft1 ← call_async_fn .pending out
    .ok ⟨ft1, true⟩
  else do
    let _ ← asyncWrapperGetattr ("chain_futures")
    chain_futures .pending connectOutcome true out

/-- Embedding of the `wrapped_fn` of `AsyncWrapper.inject_callbacks_and_decode`
(acouchbase/logic/wrappers.py, lines 270-318).  It first pops the mandatory
`transcoder` kwarg (`KeyError` when absent).  With a connection, the wrapped
function is invoked directly.  Without one, the code evaluates
`cls._chain_futures` in order to attach it to the bucket connect future —
note the leading underscore in the source at line 310. -/
def inject_callbacks_and_decode_wrapped (transcoderPresent : Bool)
    (connSet : Bool) (connectOutcome : FutureState) (out : FnOutcome) :
    Except PyExc ChainResult :=
  if !transcoderPresent then .error (.keyError ("transcoder"))
  else if connSet then do
    let ft1 ← call_async_fn .pending out
    .ok ⟨ft1, true⟩
  else do
    let _ ← asyncWrapperGetattr ("_chain_futures")
    chain_futures .pending connectOutcome true out

/-- Embedding of the `wrapped_fn` of `AsyncWrapper.inject_cluster_callbacks`
(acouchbase/logic/wrappers.py, lines 176-223).  With a connection, invoke the
wrapped function.  Without one: when `chain_connection` is true, attach
`cls.chain_futures` to the cluster connect future; otherwise set a
`MissingConnectionException` on the future — the wrapped function is never
invoked. -/
def inject_cluster_callbacks_wrapped (connSet : Bool) (chainConnection : Bool)
    (connectOutcome : FutureState) (out : FnOutcome) : Except PyExc ChainResult :=
  if connSet then do
    let ft1 ← call_async_fn .pending out
    .ok ⟨ft1, true⟩
  else if chainConnection then do
    let _ ← asyncWrapperGetattr ("chain_futures")
    chain_futures .pending connectOutcome false out
  else do
    let ft1 ← futSetException .pending
      (.missingConnection ("Not connected.  Cannot perform operation."))
    .ok ⟨ft1, false⟩

/-- Embedding of the `wrapped_fn` of `AsyncMgmtWrapper.inject_callbacks`
(acouchbase/management/logic/wrappers.py, lines 25-76): with a connection,
invoke the wrapped management function through `call_async_fn`; without one,
set a `MissingConnectionException` on the future and never invoke it. -/
def mgmt_inject_callbacks_wrapped (connSet : Bool) (out : FnOutcome) :
    Except PyExc ChainResult :=
  if connSet then do
    let ft1 ← call_async_fn .pending out
    .ok ⟨ft1, true⟩
  else do
    let ft1 ← futSetException .pending
      (.missingConnection ("Not connected.  Cannot perform bucket management operation."))
    .ok ⟨ft1, false⟩

/-- Embedding of the local argument validation of `CollectionLogic.get`
(couchbase/logic/collection.py, lines 80-110) as the synchronous outcome of
the wrapped function: when the `project` kwarg is a list of more than 16
entries, `InvalidArgumentException` is raised; otherwise the function proceeds
to the native `kv_operation` call and returns. -/
def collectionLogic_get (project : Option PyVal) : FnOutcome :=
  match project with
  | some (.pylist ps) =>
      if ps.length > 16 then
        .raises (.invalidArgument
          ("Maximum of 16 projects allowed. Provided " ++ toString ps.length))
      else .returns
  | _ => .returns

/-! ### `couchbase/logic/n1ql.py` -/

/-- The `QueryScanConsistency` enum (couchbase/logic/n1ql.py, lines 29-38). -/
inductive QueryScanConsistency : Type where
  | not_bounded
  | request_plus
  | at_plus
deriving Repr, DecidableEq

/-- The string `.value` of each `QueryScanConsistency` member. -/
def QueryScanConsistency.val : QueryScanConsistency → String
  | .not_bounded => "not_bounded"
  | .request_plus => "request_plus"
  | .at_plus => "at_plus"

/-- The Python value handed to the `consistency` setter: a
`QueryScanConsistency` member, a string, or anything else. -/
inductive ConsistencyInput : Type where
  | enumV (c : QueryScanConsistency)
  | strV (s : String)
  | otherV
deriving Repr, DecidableEq

/-- The message of the AT_PLUS rejection raised by the `consistency`
setter. -/
def atPlusMsg : String :=
  "Cannot set consistency to AT_PLUS.  Use consistent_with instead or " ++
  "set consistency to NOT_BOUNDED or REQUEST_PLUS"

/-- The message of the type rejection raised by the `consistency` setter. -/
def consistencyTypeMsg : String :=
  "Excepted consistency to be either of type QueryScanConsistency or str " ++
  "representation of QueryScanConsistency"

/-- Embedding of the `N1QLQuery.consistency` setter (couchbase/logic/n1ql.py,
lines 309-332) acting on `self._params`: when `mutation_state` is not among
the params, an `AT_PLUS` value (enum member or its string) raises
`InvalidArgumentException`, any other member or member-string stores
`scan_consistency`, and a non-member value raises; when `mutation_state` is
present the whole branch is skipped and the params are returned unchanged. -/
def consistencySetter (p : Params) (v : ConsistencyInput) : Except PyExc Params :=
  if !paramsContains p ("mutation_state") then
    match v with
    | .enumV c =>
        if c = .at_plus then .error (.invalidArgument atPlusMsg)
        else .ok (paramsSet p ("scan_consistency") (.pystr c.val))
    | .strV s =>
        if [QueryScanConsistency.not_bounded, .request_plus, .at_plus].map
            QueryScanConsistency.val |>.contains s then
          if s = QueryScanConsistency.at_plus.val then
            .error (.invalidArgument atPlusMsg)
          else .ok (paramsSet p ("scan_consistency") (.pystr s))
        else .error (.invalidArgument consistencyTypeMsg)
    | .otherV => .error (.invalidArgument consistencyTypeMsg)
  else .ok p

/-- Embedding of the `N1QLQuery.consistency` getter (couchbase/logic/n1ql.py,
lines 297-307): an unset `scan_consistency` reads as `AT_PLUS` when
`mutation_state` is present and as `NOT_BOUNDED` otherwise; a stored string
reads as `REQUEST_PLUS` exactly for `"request_plus"` and `NOT_BOUNDED` for any
other string; a stored non-string falls off the end of the function and reads
as `None`. -/
def consistencyGetter (p : Params) : Option QueryScanConsistency :=
  match paramsGet p ("scan_consistency") with
  | Option.none =>
      if paramsContains p ("mutation_state") then some .at_plus
      else some .not_bounded
  | some (.pystr s) =>
      some (if s = "request_plus" then .request_plus else .not_bounded)
  | some _ => Option.none

/-- A Python `timedelta`, modelled by its length in seconds
(`total_seconds()` returns exactly this value). -/
structure PyTimedelta : Type where
  seconds : Rat
deriving Repr, DecidableEq

/-- The value handed to the `timeout` setter: a `timedelta`, a float, or
anything else. -/
inductive TimeoutInput : Type where
  | tdV (t : PyTimedelta)
  | floatV (q : Rat)
  | otherV (v : PyVal)

/-- Embedding of the `N1QLQuery.timeout` setter (couchbase/logic/n1ql.py,
lines 275-286): a falsy value pops `timeout` from the params; a value that is
neither `timedelta` nor `float` raises `InvalidArgumentException`; a
`timedelta` stores `value.total_seconds()` and a float stores the float. -/
def timeoutSetter (p : Params) (v : TimeoutInput) : Except PyExc Params :=
  match v with
  | .tdV t =>
      if t.seconds = 0 then .ok (paramsPop p ("timeout"))
      else .ok (paramsSet p ("timeout") (.pyfloat t.seconds))
  | .floatV q =>
      if q = 0 then .ok (paramsPop p ("timeout"))
      else .ok (paramsSet p ("timeout") (.pyfloat q))
  | .otherV v =>
      if pyFalsy v then .ok (paramsPop p ("timeout"))
      else .error (.invalidArgument ("Excepted timeout to be a timedelta | float"))

/-- Embedding of the `N1QLQuery.timeout` getter (couchbase/logic/n1ql.py,
lines 267-273): read `self._params.get('timeout', None)`; a falsy value reads
as `None`; otherwise evaluate `value[:-1]` and then `float(value)` — Python
slicing of a non-sequence raises `TypeError`. -/
def timeoutGetter (p : Params) : Except PyExc (Option Rat) :=
  let value := (paramsGet p ("timeout")).getD .pynone
  if pyFalsy value then .ok Option.none
  else do
    let v1 ← pySliceDropLast value
    let q ← pyFloatFn v1
    .ok (some q)

/-! ### `QueryRequestLogic` and the query error mapping -/

/-- The `raw_result` dictionary of a query response object, with the fields
read by `QueryRequestLogic`: `exc` (a raw engine error object or `None`),
`exc_info` (a dict or `None`), `has_exception` and `value`. -/
structure QueryResponse : Type where
  exc : Option NativeErr
  exc_info : Option Params
  has_exception : Option PyVal
  value : Option Params

/-- Truthiness of an optional dict-entry (`if has_exception:` and
`if base_exc is None and exc_info:`). -/
def truthyOpt : Option PyVal → Bool
  | Option.none => false
  | some v => !pyFalsy v

/-- Truthiness of the optional `exc_info` dict. -/
def truthyInfo : Option Params → Bool
  | Option.none => false
  | some d => !d.isEmpty

/-- The exception class produced by `PYCBC_ERROR_MAP.get(code,
CouchbaseException)`, applied to a message.  Modelled from the spec:
`PYCBC_ERROR_MAP` (`couchbase/exceptions.py`, not under `src/`) is a fixed
code-to-class table whose lookup defaults to the generic `CouchbaseException`
base; an integer code selects the class registered for that code. -/
def pycbc_error_map_exc (code : Option PyVal) (msg : String) : PyExc :=
  match code with
  | some (.pyint n) => .mappedEngine n msg
  | _ => .couchbaseBase msg

/-- Modelled from the spec: `ErrorMapper.parse_error_context`
(`couchbase/exceptions.py`, not under `src/`) maps a contextful engine error
to exactly one fine-grained typed exception (§4.4, step 1). -/
def parse_error_context (e : NativeErr) : PyExc :=
  .mappedEngine e.err e.strerror

/-- Python tuple-unpacking `k, v = s` of a string `s`: succeeds exactly when
the string has two characters; shorter strings raise
`ValueError: not enough values to unpack`, longer ones
`ValueError: too many values to unpack`. -/
def strUnpack2 (s : String) : Except PyExc (String × String) :=
  match s.toList with
  | [a, b] => .ok (String.mk [a], String.mk [b])
  | [] => .error (.valueError ("not enough values to unpack (expected 2, got 0)"))
  | [_] => .error (.valueError ("not enough values to unpack (expected 2, got 1)"))
  | _ => .error (.valueError ("too many values to unpack (expected 2)"))

/-- The dict comprehension
`{k: v for k, v in exc_info if k in ['cinfo', 'inner_cause']}`
(couchbase/logic/n1ql.py, line 614): iterating the dict yields its keys, each
of which is tuple-unpacked as a pair of characters and kept when the
first character equals one of the two full key names. -/
def excInfoComprehension (d : Params) : Except PyExc Params := do
  let pairs ← d.mapM (fun kv => strUnpack2 kv.1)
  .ok ((pairs.filter (fun kv => kv.1 = "cinfo" ∨ kv.1 = "inner_cause")).map
    (fun kv => (kv.1, PyVal.pystr kv.2)))

/-- The outcome of `_handle_query_result_exc`: the function always ends in a
`raise`; `mapped e` is the intended raise of the constructed typed exception
`e`, while `secondary e` is an unintended exception `e` escaping from the
mapping code itself. -/
inductive MapOutcome : Type where
  | mapped (e : PyExc)
  | secondary (e : PyExc)

/-- Embedding of `QueryRequestLogic._handle_query_result_exc`
(couchbase/logic/n1ql.py, lines 607-631).  When `exc` is `None` and
`exc_info` is truthy, the class for `exc_info['error_code']` is looked up,
the `new_exc_info` comprehension runs over the `exc_info` dict, and the class
is applied to `exc_info['message']`.  Otherwise `base_exc.error_context()` is
consulted: with a context the error goes through
`ErrorMapper.parse_error_context`, without one through the bare-code table —
and when `exc` is `None` on this branch, the attribute access on `None`
raises.  The trailing `if excptn is None` fallback of the source is
unreachable in the model because the modelled class table is total. -/
def handle_query_result_exc (raw : QueryResponse) : MapOutcome :=
  if raw.exc.isNone ∧ truthyInfo raw.exc_info then
    let info := raw.exc_info.getD []
    let excCls := fun m => pycbc_error_map_exc (paramsGet info ("error_code")) m
    match excInfoComprehension info with
    | .error e => .secondary e
    | .ok _ =>
        .mapped (excCls (match paramsGet info ("message") with
          | some (.pystr m) => m
          | _ => ""))
  else
    match raw.exc with
    | Option.none =>
        .secondary (.attributeError ("NoneType object has no attribute error_context"))
    | some be =>
        match be.errorContext with
        | some _ => .mapped (parse_error_context be)
        | Option.none => .mapped (pycbc_error_map_exc (some (.pyint be.err)) be.strerror)

/-- Model of a `QueryMetaData` object (couchbase/logic/n1ql.py, lines
128-134): `self._raw` is `raw.get('metadata', None)` when the constructor
argument is not `None`, else `None`. -/
structure QueryMetaDataM : Type where
  raw : Option PyVal

/-- The `QueryMetaData.__init__` logic applied to `raw_result.get('value')`
(a dict delivered by the engine, or `None`): `self._raw` becomes
`raw.get('metadata', None)` when the argument is not `None`, else `None`. -/
def QueryMetaDataM.ofValue (v : Option Params) : QueryMetaDataM :=
  match v with
  | Option.none => ⟨Option.none⟩
  | some d => ⟨paramsGet d ("metadata")⟩

/-- The observable state of a `QueryRequestLogic` object together with an
instrumentation counter of native `n1ql_query` submissions. -/
structure QueryRequestLogicState : Type where
  started_streaming : Bool
  done_streaming : Bool
  metadataVal : Option QueryMetaDataM
  submissions : Nat

/-- Embedding of `QueryRequestLogic.__init__` (couchbase/logic/n1ql.py, lines
559-577): `_started_streaming` and `_done_streaming` start `False`,
`_metadata` starts `None`, and no native call is made (zero submissions). -/
def queryRequestLogicInit : QueryRequestLogicState :=
  ⟨false, false, Option.none, 0⟩

/-- Embedding of `QueryRequestLogic.metadata` (couchbase/logic/n1ql.py, lines
603-605): the body is `return self._metadata` — it returns the current
`_metadata` attribute unconditionally and never raises (an `Except` error
would be a raise). -/
def metadataMethod (s : QueryRequestLogicState) :
    Except PyExc (Option QueryMetaDataM) :=
  .ok s.metadataVal

/-- Embedding of `QueryRequestLogic._submit_query` (couchbase/logic/n1ql.py,
lines 651-660): return immediately when `done_streaming`; otherwise set
`_started_streaming` and call the native `n1ql_query` (one submission). -/
def submit_query (s : QueryRequestLogicState) : QueryRequestLogicState :=
  if s.done_streaming then s
  else { s with started_streaming := true, submissions := s.submissions + 1 }

/-- Embedding of `QueryRequestLogic._set_metadata` (couchbase/logic/n1ql.py,
lines 633-638): a truthy `has_exception` routes through
`_handle_query_result_exc` (which raises); otherwise `_metadata` is set to
`QueryMetaData(query_response.raw_result.get('value', None))`. -/
def set_metadata (s : QueryRequestLogicState) (resp : QueryResponse) :
    Except PyExc QueryRequestLogicState :=
  if truthyOpt resp.has_exception then
    .error (match handle_query_result_exc resp with
      | .mapped e => e
      | .secondary e => e)
  else
    .ok { s with metadataVal := some (QueryMetaDataM.ofValue resp.value) }

/-! ## Theorems -/

/-- Resolution calls running against an already-completed future never change
it: each one raises `InvalidStateError`, which the loop catches and reports to
its exception handler. -/
theorem runSched_of_done (s : FutureState) (h : s ≠ .pending) :
    ∀ (calls : List SchedCall) (handled : List PyExc),
    runSched s handled calls =
      (s, handled ++ calls.map (fun _ => PyExc.invalidState ("invalid state"))) := by
  intro calls
  induction calls with
  | nil => intro handled; simp [runSched]
  | cons c rest ih =>
      intro handled
      have happ : applySchedCall s c = .error (.invalidState ("invalid state")) := by
        cases s with
        | pending => exact absurd rfl h
        | resolvedOk v => cases c <;> rfl
        | resolvedErr e => cases c <;> rfl
        | cancelled => cases c <;> rfl
      simp [runSched, happ, ih]

/-- The first engine callback invocation resolves the pending operation
future with its scheduled resolution. -/
theorem injectCallbacks_first_step (rc : ReturnCls) (e : NativeEvent) :
    applySchedCall .pending (injectCallbacksSched rc e) = .ok (resolveOf rc e) := by
  cases e <;> rfl

/-- The resolution produced by an engine callback is never the pending
state. -/
theorem resolveOf_ne_pending (rc : ReturnCls) (e : NativeEvent) :
    resolveOf rc e ≠ .pending := by
  cases e <;> simp [resolveOf]

/-- C1: for every operation wrapped by `AsyncWrapper.inject_callbacks`, the
asyncio future is resolved exactly once.  Whatever sequence of success/failure
callback invocations the native layer performs, the future ends in the
resolution scheduled by the first invocation, and every later invocation is an
`InvalidStateError` caught by the event loop (an assertion reported to the
loop exception handler, never a crash and never a change of the future's
value). -/
theorem c1_exactly_once_resolution (rc : ReturnCls) (e : NativeEvent)
    (rest : List NativeEvent) :
    injectCallbacksDeliver rc (e :: rest) =
      (resolveOf rc e, rest.map (fun _ => PyExc.invalidState ("invalid state"))) := by
  have h1 := injectCallbacks_first_step rc e
  have h2 := runSched_of_done (resolveOf rc e) (resolveOf_ne_pending rc e)
    (rest.map (injectCallbacksSched rc)) []
  simp only [injectCallbacksDeliver, List.map_cons, runSched, h1, h2]
  simp [Function.comp_def]

/-- Invoking the wrapped function through `call_async_fn` on a pending future
never raises: every synchronous exception of the wrapped function is caught
and set on the future. -/
theorem call_async_fn_pending_ok (out : FnOutcome) :
    ∃ s, call_async_fn .pending out = .ok s := by
  cases out with
  | returns => exact ⟨_, rfl⟩
  | raises e =>
      simp only [call_async_fn]
      split
      · exact ⟨_, rfl⟩
      · split
        · exact ⟨_, rfl⟩
        · exact ⟨_, rfl⟩

/-- C2: the done-callbacks `AsyncWrapper.chain_futures` and
`AsyncWrapper.chain_connect_futures` propagate the connect outcome to the
dependent operation future: a connect failure with exception `E` resolves the
dependent future with the same `E` without invoking the wrapped function; a
cancelled connect future cancels the dependent future (it is not left
pending); only a successful connect future leads to the wrapped function
being invoked. -/
theorem c2_chained_connect_propagation (setConn : Bool) (out : FnOutcome)
    (e : PyExc) (r : PyVal) :
    (chain_futures .pending (.resolvedErr e) setConn out = .ok ⟨.resolvedErr e, false⟩)
    ∧ (chain_futures .pending .cancelled setConn out = .ok ⟨.cancelled, false⟩)
    ∧ (∃ ft1, chain_futures .pending (.resolvedOk r) setConn out = .ok ⟨ft1, true⟩)
    ∧ (chain_connect_futures .pending (.resolvedErr e) out = .ok ⟨.resolvedErr e, false⟩)
    ∧ (chain_connect_futures .pending .cancelled out = .ok ⟨.cancelled, false⟩)
    ∧ (∃ ft1, chain_connect_futures .pending (.resolvedOk r) out = .ok ⟨ft1, true⟩) := by
  obtain ⟨s, hs⟩ := call_async_fn_pending_ok out
  refine ⟨rfl, rfl, ⟨s, ?_⟩, rfl, rfl, ⟨s, ?_⟩⟩
  · simp only [chain_futures, hs]
    rfl
  · simp only [chain_connect_futures, hs]
    rfl

/-- C3 counterexample: on a freshly constructed streaming query request — a
state that has not reached DONE — `metadata()` does not raise a typed
"not ready" error: it returns `None` (`Except.ok Option.none`). -/
theorem c3_metadata_counterexample :
    queryRequestLogicInit.done_streaming = false
    ∧ queryRequestLogicInit.started_streaming = false
    ∧ metadataMethod queryRequestLogicInit = .ok Option.none :=
  ⟨rfl, rfl, rfl⟩

/-- C3 (amended): `metadata()` never raises; before the stream completes it
returns the unset `None` placeholder, and once `_set_metadata` has processed a
successful query response it returns the `QueryMetaData` record built from
that response's `value`. -/
theorem c3_metadata_amended (s : QueryRequestLogicState) (resp : QueryResponse)
    (h : truthyOpt resp.has_exception = false) :
    metadataMethod s = .ok s.metadataVal
    ∧ ∃ s1, set_metadata s resp = .ok s1
        ∧ metadataMethod s1 = .ok (some (QueryMetaDataM.ofValue resp.value)) := by
  refine ⟨rfl, ⟨{ s with metadataVal := some (QueryMetaDataM.ofValue resp.value) }, ?_, rfl⟩⟩
  simp [set_metadata, h]

/-- A successful query response carrying a metadata payload. -/
def respOkSample : QueryResponse :=
  ⟨Option.none, Option.none, Option.none, some [("metadata", PyVal.pystr ("md"))]⟩

/-- Witness for the amended C3 at a concrete state and response. -/
theorem c3_metadata_amended_witness :
    truthyOpt respOkSample.has_exception = false
    ∧ (metadataMethod queryRequestLogicInit = .ok queryRequestLogicInit.metadataVal
      ∧ ∃ s1, set_metadata queryRequestLogicInit respOkSample = .ok s1
          ∧ metadataMethod s1 = .ok (some (QueryMetaDataM.ofValue respOkSample.value))) :=
  ⟨rfl, c3_metadata_amended queryRequestLogicInit respOkSample rfl⟩

/-- C4: constructing a `QueryRequestLogic` performs no native submission
(`started_streaming` is `False` and the submission count is zero); a
submission attempt while the stream is not done marks streaming as started
and performs exactly one native `n1ql_query` call; a submission attempt after
the stream is done leaves the state — in particular the submission count —
unchanged. -/
theorem c4_lazy_submission :
    (queryRequestLogicInit.started_streaming = false
      ∧ queryRequestLogicInit.submissions = 0)
    ∧ (∀ s : QueryRequestLogicState, s.done_streaming = false →
        submit_query s =
          { s with started_streaming := true, submissions := s.submissions + 1 })
    ∧ (∀ s : QueryRequestLogicState, s.done_streaming = true →
        submit_query s = s) := by
  refine ⟨⟨rfl, rfl⟩, ?_, ?_⟩
  · intro s h
    simp [submit_query, h]
  · intro s h
    simp [submit_query, h]

/-- Witness for C4 at the freshly constructed state and at a done state. -/
theorem c4_lazy_submission_witness :
    submit_query queryRequestLogicInit =
      { queryRequestLogicInit with started_streaming := true, submissions := 1 }
    ∧ submit_query { queryRequestLogicInit with done_streaming := true } =
      { queryRequestLogicInit with done_streaming := true } :=
  ⟨c4_lazy_submission.2.1 queryRequestLogicInit rfl,
   c4_lazy_submission.2.2 { queryRequestLogicInit with done_streaming := true } rfl⟩

/-- C5: an operation submitted through a node with an unset connection and no
connect chaining available — the `inject_cluster_callbacks` path with
`chain_connection=False`, and every `AsyncMgmtWrapper.inject_callbacks`
management operation — resolves the returned future with
`MissingConnectionException` while the wrapped native function is never
invoked, and no exception escapes synchronously. -/
theorem c5_missing_connection (connectOutcome : FutureState) (out : FnOutcome) :
    inject_cluster_callbacks_wrapped false false connectOutcome out =
      .ok ⟨.resolvedErr (.missingConnection
        ("Not connected.  Cannot perform operation.")), false⟩
    ∧ mgmt_inject_callbacks_wrapped false out =
      .ok ⟨.resolvedErr (.missingConnection
        ("Not connected.  Cannot perform bucket management operation.")), false⟩ :=
  ⟨rfl, rfl⟩

/-- C6: on a collection whose connection is unset, the plain
`inject_callbacks` wrapper chains the bucket connect and returns the future
with no synchronous error — but the decoded-read wrapper
`inject_callbacks_and_decode` evaluates `cls._chain_futures`, an attribute
`AsyncWrapper` does not define, so the wrapped call (e.g. `get`) raises
`AttributeError` synchronously instead of returning a future. -/
theorem c6_decode_wrapper_attribute_bug :
    inject_callbacks_and_decode_wrapped true false (.resolvedOk .pynone) .returns =
      .error (.attributeError
        ("type object AsyncWrapper has no attribute _chain_futures"))
    ∧ inject_callbacks_wrapped false (.resolvedOk .pynone) .returns =
      .ok ⟨.pending, true⟩ :=
  ⟨rfl, rfl⟩

/-- A typical `exc_info` dict as delivered with a bare error code and a
message. -/
def excInfoSample : Params :=
  [("error_code", PyVal.pyint 1), ("message", PyVal.pystr ("boom"))]

/-- C7: the query error-mapping step can itself raise.  On a response with a
bare `exc_info` dict (no raw exception object), the comprehension
`\x7bk: v for k, v in exc_info ...\x7d` iterates the dict's keys and
tuple-unpacks each key string, raising `ValueError` for any key that is not
exactly two characters long; and on a response with neither `exc` nor
`exc_info` the code dereferences `None.error_context()`, raising
`AttributeError`.  Both are secondary exceptions escaping the mapping instead
of the single typed exception the claim requires. -/
theorem c7_mapping_raises_secondary :
    handle_query_result_exc ⟨Option.none, some excInfoSample, Option.none, Option.none⟩ =
      .secondary (.valueError ("too many values to unpack (expected 2)"))
    ∧ handle_query_result_exc ⟨Option.none, Option.none, Option.none, Option.none⟩ =
      .secondary (.attributeError ("NoneType object has no attribute error_context")) :=
  ⟨rfl, rfl⟩

/-- The 17-entry projection list of the C8 scenario. -/
def seventeenProjections : List PyVal := List.replicate 17 (PyVal.pystr ("f"))

/-- C8 counterexample: a `get` with 17 projections on a connected collection
returns normally from the wrapper (`Except.ok` — nothing is raised
synchronously at the call site) and the `InvalidArgumentException` is instead
delivered through the returned future's failure channel, because
`call_async_fn` catches it and calls `ft.set_exception`. -/
theorem c8_validation_counterexample :
    inject_callbacks_and_decode_wrapped true true .pending
        (collectionLogic_get (some (.pylist seventeenProjections))) =
      .ok ⟨.resolvedErr (.invalidArgument
        ("Maximum of 16 projects allowed. Provided 17")), true⟩ :=
  rfl

/-- C8 (amended): for every projection list of more than 16 entries, the
argument-validation exception raised by `CollectionLogic.get` is caught by
`call_async_fn` and set on the returned future — the wrapper returns the
future normally and the exception reaches the caller through the future's
failure channel, not as a synchronous raise. -/
theorem c8_validation_amended (ps : List PyVal) (h : 16 < ps.length) :
    inject_callbacks_and_decode_wrapped true true .pending
        (collectionLogic_get (some (.pylist ps))) =
      .ok ⟨.resolvedErr (.invalidArgument
        ("Maximum of 16 projects allowed. Provided " ++ toString ps.length)), true⟩ := by
  simp only [collectionLogic_get, if_pos h]
  rfl

/-- Witness for the amended C8 at the 17-entry projection list. -/
theorem c8_validation_amended_witness :
    16 < seventeenProjections.length
    ∧ inject_callbacks_and_decode_wrapped true true .pending
        (collectionLogic_get (some (.pylist seventeenProjections))) =
      .ok ⟨.resolvedErr (.invalidArgument
        ("Maximum of 16 projects allowed. Provided " ++
          toString seventeenProjections.length)), true⟩ :=
  ⟨by simp [seventeenProjections], c8_validation_amended seventeenProjections
    (by simp [seventeenProjections])⟩

/-- C9: setting the `consistency` property to the AT_PLUS sentinel — as the
enum member or its string value — raises `InvalidArgumentException` when no
`mutation_state` param is set; when a `mutation_state` param is present the
setter returns without raising (and without touching the params), and with
`scan_consistency` unset (the state the `consistent_with` setter establishes)
the `consistency` getter reads back AT_PLUS. -/
theorem c9_at_plus_coupling (p : Params) :
    (paramsContains p ("mutation_state") = false →
        consistencySetter p (.enumV .at_plus) = .error (.invalidArgument atPlusMsg)
      ∧ consistencySetter p (.strV ("at_plus")) = .error (.invalidArgument atPlusMsg))
    ∧ (paramsContains p ("mutation_state") = true →
        (∀ v, consistencySetter p v = .ok p)
      ∧ (paramsGet p ("scan_consistency") = Option.none →
          consistencyGetter p = some .at_plus)) := by
  constructor
  · intro h
    constructor
    · simp [consistencySetter, h]
    · simp [consistencySetter, h, QueryScanConsistency.val]
  · intro h
    refine ⟨fun v => ?_, fun hg => ?_⟩
    · simp [consistencySetter, h]
    · simp [consistencyGetter, hg, h]

/-- A params dict holding only a mutation state. -/
def mutStateParams : Params := [("mutation_state", PyVal.pylist [])]

/-- Witness for C9 on the empty params dict and on a dict holding a mutation
state. -/
theorem c9_at_plus_coupling_witness :
    (consistencySetter [] (.enumV .at_plus) = .error (.invalidArgument atPlusMsg)
      ∧ consistencySetter [] (.strV ("at_plus")) = .error (.invalidArgument atPlusMsg))
    ∧ (consistencySetter mutStateParams (.enumV .at_plus) = .ok mutStateParams
      ∧ consistencyGetter mutStateParams = some .at_plus) :=
  ⟨(c9_at_plus_coupling []).1 rfl,
   ⟨((c9_at_plus_coupling mutStateParams).2 rfl).1 (.enumV .at_plus),
    ((c9_at_plus_coupling mutStateParams).2 rfl).2 rfl⟩⟩

/-- C10: the `timeout` setter/getter pair does not round-trip.  Assigning a
30-second `timedelta` stores the float `30.0` under `timeout`, and reading
the property back then evaluates `value[:-1]` on that float, raising
`TypeError` instead of returning `30.0`. -/
theorem c10_timeout_roundtrip_bug :
    timeoutSetter [] (.tdV ⟨30⟩) = .ok [("timeout", PyVal.pyfloat 30)]
    ∧ timeoutGetter [("timeout", PyVal.pyfloat 30)] =
        .error (.typeError ("float object is not subscriptable")) := by
  constructor
  · simp [timeoutSetter, paramsSet]
  · rfl

end CouchbasePy
